import Mathlib

/-!
Verification of the aggregation/projection core of metacloud/node-disk-manager.

The controller logic is embedded from src/cmd/ndm_daemonset/controller/disk.go.
The exported API container types (apis.Disk and friends) and the package-level
string constants are declared outside the given sources; they are modelled from
the spec, with Go zero values made explicit as Lean field defaults (a Go struct
literal zero-initialises every omitted field).
-/

/-- Modelled from the spec: controller constant NDMDefaultDiskType (declaration
not in src) — the default device classification, the "regular disk" value. -/
def NDMDefaultDiskType : String := "disk"

/-- Modelled from the spec: controller constant KubernetesHostNameLabel
(declaration not in src) — the node-name label key of the identity metadata. -/
def KubernetesHostNameLabel : String := "kubernetes.io/hostname"

/-- Modelled from the spec: controller constant HostNameKey (declaration not in
src) — the node-attributes key holding the node name. -/
def HostNameKey : String := "hostname"

/-- Modelled from the spec: controller constant NDMDiskTypeKey (declaration not
in src) — the classification label key of the identity metadata. -/
def NDMDiskTypeKey : String := "ndm.io/disk-type"

/-- Modelled from the spec: controller constant NDMManagedKey (declaration not
in src) — the managed-marker label key of the identity metadata. -/
def NDMManagedKey : String := "ndm.io/managed"

/-- Modelled from the spec: controller constant TrueString (declaration not in
src) — the fixed true-value written under the managed-marker label. -/
def TrueString : String := "true"

/-- Modelled from the spec: controller constant NDMDiskKind (declaration not in
src) — the resource kind tag. -/
def NDMDiskKind : String := "Disk"

/-- Modelled from the spec: controller constant NDMVersion (declaration not in
src) — the resource version tag. -/
def NDMVersion : String := "openebs.io/v1alpha1"

/-- Modelled from the spec: controller constant NDMActive (declaration not in
src) — the fixed "active" lifecycle value stamped on every export. -/
def NDMActive : String := "Active"

/-- Modelled from the spec: udev package constant UDEV_FS_NONE (declaration not
in src) — the sentinel filesystem-type string meaning "no filesystem". -/
def udev.UDEV_FS_NONE : String := "none"

/-- NodeAttribute (disk.go line 70): a Go map from attribute name to value,
embedded as an association list. -/
abbrev NodeAttribute := List (String × String)

/-- Go map indexing `m[k]` on a possibly-nil map: a missing key (or a nil map)
yields the zero value "", never an error. -/
def NodeAttribute.goIndex (m : Option NodeAttribute) (k : String) : String :=
  match m with
  | none => ""
  | some l => (List.lookup k l).getD ""

/-- Modelled from the spec: apis.FileSystemInfo is in src
(blockdevice_types.go lines 68-72); the Go field `Type` is renamed `fsType`
(its json tag) because `Type` is reserved in Lean. Both json tags carry
`omitempty`. Defaults are the Go zero values. -/
structure apis.FileSystemInfo where
  fsType : String := ""
  Mountpoint : String := ""
deriving Repr, DecidableEq

/-- The serialized (json) form of an apis.FileSystemInfo: both fields are
tagged `omitempty` (blockdevice_types.go lines 70-71), so a field holding the
empty string is omitted from the exported object entirely. -/
def apis.FileSystemInfo.jsonFields (f : apis.FileSystemInfo) : List (String × String) :=
  (if f.fsType = "" then [] else [("fsType", f.fsType)]) ++
  (if f.Mountpoint = "" then [] else [("mountPoint", f.Mountpoint)])

/-- Modelled from the spec: apis.Partition (declaration not in src) — one
exported partition entry: partition-type code plus projected filesystem. -/
structure apis.Partition where
  PartitionType : String := ""
  FileSystem : apis.FileSystemInfo := {}
deriving Repr, DecidableEq

/-- Modelled from the spec: apis.DiskDevLink (declaration not in src) — one
devlink group: a kind tag ("by-id" / "by-path") and its link list. -/
structure apis.DiskDevLink where
  Kind : String := ""
  Links : List String := []
deriving Repr, DecidableEq

/-- Modelled from the spec: apis.DiskCapacity (declaration not in src) —
capacity in bytes plus logical/physical sector sizes. -/
structure apis.DiskCapacity where
  Storage : Nat := 0
  LogicalSectorSize : Nat := 0
  PhysicalSectorSize : Nat := 0
deriving Repr, DecidableEq

/-- Modelled from the spec: apis.DiskDetails (declaration not in src) — static
hardware details of the exported disk. -/
structure apis.DiskDetails where
  Model : String := ""
  Serial : String := ""
  Vendor : String := ""
  FirmwareRevision : String := ""
  Compliance : String := ""
  DriveType : String := ""
  RotationRate : Nat := 0
deriving Repr, DecidableEq

/-- Modelled from the spec: apis.DiskSpec (declaration not in src) — the spec
block of the exported resource. -/
structure apis.DiskSpec where
  Path : String := ""
  Capacity : apis.DiskCapacity := {}
  Details : apis.DiskDetails := {}
  DevLinks : List apis.DiskDevLink := []
  FileSystem : apis.FileSystemInfo := {}
deriving Repr, DecidableEq

/-- Modelled from the spec: apis.DiskStatus (declaration not in src) — the
status block, holding the lifecycle state string. -/
structure apis.DiskStatus where
  State : String := ""
deriving Repr, DecidableEq

/-- Modelled from the spec: apis.Temperature (declaration not in src) — the
exported temperature sub-block (current/highest/lowest, whole degrees).
Go zero-initialises all three fields to 0. -/
structure apis.Temperature where
  CurrentTemperature : Int := 0
  HighestTemperature : Int := 0
  LowestTemperature : Int := 0
deriving Repr, DecidableEq

/-- Modelled from the spec: apis.DiskStat (declaration not in src) — the stats
block: four runtime counters plus the temperature sub-block. The two
utilization ratios are float64 in Go, embedded as Float. -/
structure apis.DiskStat where
  TotalBytesRead : Nat := 0
  TotalBytesWritten : Nat := 0
  DeviceUtilizationRate : Float := 0
  PercentEnduranceUsed : Float := 0
  TempInfo : apis.Temperature := {}
deriving Repr

/-- Modelled from the spec: metav1.TypeMeta (external k8s type) — resource kind
and version tag. -/
structure metav1.TypeMeta where
  Kind : String := ""
  APIVersion : String := ""
deriving Repr, DecidableEq

/-- Modelled from the spec: metav1.ObjectMeta (external k8s type) — resource
name and label mapping. The Go label map is embedded as an association list in
insertion order of disk.go's getObjectMeta; its three keys are distinct. -/
structure metav1.ObjectMeta where
  Name : String := ""
  Labels : List (String × String) := []
deriving Repr, DecidableEq

/-- Modelled from the spec: apis.Disk (declaration not in src) — the full
exported resource object. -/
structure apis.Disk where
  TypeMeta : metav1.TypeMeta := {}
  ObjectMeta : metav1.ObjectMeta := {}
  Spec : apis.DiskSpec := {}
  Status : apis.DiskStatus := {}
  Stats : apis.DiskStat := {}
deriving Repr

/-- ProbeIdentifier (disk.go lines 81-87): source-scoped identifier keys. -/
structure ProbeIdentifier where
  Uuid : String := ""
  UdevIdentifier : String := ""
  SmartIdentifier : String := ""
  SeachestIdentifier : String := ""
  MountIdentifier : String := ""
deriving Repr, DecidableEq

/-- FSInfo (disk.go lines 98-101): raw filesystem facts of a device. -/
structure FSInfo where
  FileSystem : String := ""
  MountPoint : String := ""
deriving Repr, DecidableEq

/-- PartitionInfo (disk.go lines 91-94): one raw partition record. -/
structure PartitionInfo where
  PartitionType : String := ""
  FileSystemInformation : FSInfo := {}
deriving Repr, DecidableEq

/-- The anonymous TemperatureInfo struct of DiskInfo (disk.go lines 58-65).
The int16 temperatures are embedded as Int (the projection only copies them;
no arithmetic is performed). -/
structure TemperatureInfo where
  TemperatureDataValid : Bool := false
  CurrentTemperature : Int := 0
  HighestValid : Bool := false
  HighestTemperature : Int := 0
  LowestValid : Bool := false
  LowestTemperature : Int := 0
deriving Repr, DecidableEq

/-- DiskInfo (disk.go lines 31-66): the per-device attribute aggregate.
NodeAttributes is a Go map whose zero value is nil, embedded as an Option
(none = nil map). Defaults are the Go zero values. -/
structure DiskInfo where
  ProbeIdentifiers : ProbeIdentifier := {}
  NodeAttributes : Option NodeAttribute := none
  Uuid : String := ""
  Capacity : Nat := 0
  Model : String := ""
  Serial : String := ""
  Vendor : String := ""
  Path : String := ""
  ByIdDevLinks : List String := []
  ByPathDevLinks : List String := []
  FirmwareRevision : String := ""
  LogicalSectorSize : Nat := 0
  PhysicalSectorSize : Nat := 0
  RotationRate : Nat := 0
  Compliance : String := ""
  DiskType : String := ""
  DriveType : String := ""
  FileSystemInformation : FSInfo := {}
  PartitionData : List PartitionInfo := []
  TotalBytesRead : Nat := 0
  TotalBytesWritten : Nat := 0
  DeviceUtilizationRate : Float := 0
  PercentEnduranceUsed : Float := 0
  TemperatureInfo : TemperatureInfo := {}
deriving Repr

/-- NewDiskInfo (disk.go lines 106-113): fresh aggregate with an allocated
(empty, non-nil) node-attributes map and the default disk type. -/
def NewDiskInfo : DiskInfo :=
  { NodeAttributes := some [], DiskType := NDMDefaultDiskType }

/-- getFileSystemInfo (disk.go lines 258-265): start from the zero value and
copy type and mountpoint only when the type is not the absent sentinel. -/
def FSInfo.getFileSystemInfo (fs : FSInfo) : apis.FileSystemInfo :=
  if fs.FileSystem ≠ udev.UDEV_FS_NONE then
    { fsType := fs.FileSystem, Mountpoint := fs.MountPoint }
  else
    {}

/-- ToPartition (disk.go lines 128-135): one exported entry per raw partition
record, in order. -/
def DiskInfo.ToPartition (di : DiskInfo) : List apis.Partition :=
  di.PartitionData.map fun partitionData =>
    { PartitionType := partitionData.PartitionType
      FileSystem := partitionData.FileSystemInformation.getFileSystemInfo }

/-- getObjectMeta (disk.go lines 139-148): name is the aggregate Uuid; labels
hold hostname, disk type and the managed marker. -/
def DiskInfo.getObjectMeta (di : DiskInfo) : metav1.ObjectMeta :=
  { Name := di.Uuid
    Labels :=
      [(KubernetesHostNameLabel, NodeAttribute.goIndex di.NodeAttributes HostNameKey),
       (NDMDiskTypeKey, di.DiskType),
       (NDMManagedKey, TrueString)] }

/-- getTypeMeta (disk.go lines 152-158): fixed kind and version tag. -/
def DiskInfo.getTypeMeta (_ : DiskInfo) : metav1.TypeMeta :=
  { Kind := NDMDiskKind, APIVersion := NDMVersion }

/-- getStatus (disk.go lines 162-167): the state is always NDMActive. -/
def DiskInfo.getStatus (_ : DiskInfo) : apis.DiskStatus :=
  { State := NDMActive }

/-- getPath (disk.go lines 186-188). -/
def DiskInfo.getPath (di : DiskInfo) : String :=
  di.Path

/-- getDiskDetails (disk.go lines 193-203): verbatim copy of static details. -/
def DiskInfo.getDiskDetails (di : DiskInfo) : apis.DiskDetails :=
  { Model := di.Model
    Serial := di.Serial
    Vendor := di.Vendor
    FirmwareRevision := di.FirmwareRevision
    Compliance := di.Compliance
    DriveType := di.DriveType
    RotationRate := di.RotationRate }

/-- getDiskCapacity (disk.go lines 209-215): verbatim copy of sizes. -/
def DiskInfo.getDiskCapacity (di : DiskInfo) : apis.DiskCapacity :=
  { Storage := di.Capacity
    LogicalSectorSize := di.LogicalSectorSize
    PhysicalSectorSize := di.PhysicalSectorSize }

/-- getDiskLinks (disk.go lines 220-237): append a by-id entry when that list
is non-empty, then a by-path entry when that list is non-empty. -/
def DiskInfo.getDiskLinks (di : DiskInfo) : List apis.DiskDevLink :=
  (if di.ByIdDevLinks.length ≠ 0 then
    [{ Kind := "by-id", Links := di.ByIdDevLinks }]
  else []) ++
  (if di.ByPathDevLinks.length ≠ 0 then
    [{ Kind := "by-path", Links := di.ByPathDevLinks }]
  else [])

/-- getDiskSpec (disk.go lines 174-182). -/
def DiskInfo.getDiskSpec (di : DiskInfo) : apis.DiskSpec :=
  { Path := di.getPath
    Capacity := di.getDiskCapacity
    Details := di.getDiskDetails
    DevLinks := di.getDiskLinks
    FileSystem := di.FileSystemInformation.getFileSystemInfo }

/-- getStats (disk.go lines 244-256): copy the four counters; copy the three
temperatures only when the overall validity flag is set, otherwise leave the
zero-valued sub-block. -/
def DiskInfo.getStats (di : DiskInfo) : apis.DiskStat :=
  let diskStat : apis.DiskStat :=
    { TotalBytesRead := di.TotalBytesRead
      TotalBytesWritten := di.TotalBytesWritten
      DeviceUtilizationRate := di.DeviceUtilizationRate
      PercentEnduranceUsed := di.PercentEnduranceUsed }
  if di.TemperatureInfo.TemperatureDataValid = true then
    { diskStat with
      TempInfo :=
        { CurrentTemperature := di.TemperatureInfo.CurrentTemperature
          HighestTemperature := di.TemperatureInfo.HighestTemperature
          LowestTemperature := di.TemperatureInfo.LowestTemperature } }
  else
    diskStat

/-- ToDisk (disk.go lines 116-124): the full projection. -/
def DiskInfo.ToDisk (di : DiskInfo) : apis.Disk :=
  { TypeMeta := di.getTypeMeta
    ObjectMeta := di.getObjectMeta
    Spec := di.getDiskSpec
    Status := di.getStatus
    Stats := di.getStats }

/-- C1: for every filesystem-facts record whose type equals the absent
sentinel, getFileSystemInfo returns an exported filesystem whose serialized
form omits both the type and the mount-point field (neither appears, even as
an empty string); for every record whose type is not the sentinel, both type
and mount point are copied verbatim into the exported value. -/
theorem getFileSystemInfo_absent_or_verbatim (fs : FSInfo) :
    (fs.FileSystem = udev.UDEV_FS_NONE →
      (fs.getFileSystemInfo).jsonFields = []) ∧
    (fs.FileSystem ≠ udev.UDEV_FS_NONE →
      (fs.getFileSystemInfo).fsType = fs.FileSystem ∧
      (fs.getFileSystemInfo).Mountpoint = fs.MountPoint) := by
  constructor
  · intro h
    simp [FSInfo.getFileSystemInfo, h, apis.FileSystemInfo.jsonFields]
  · intro h
    simp [FSInfo.getFileSystemInfo, h]

/-- Witness for C1: a "none"-typed record projects to a serialization with no
filesystem fields; an "ext4" record has type and mount point copied verbatim. -/
theorem getFileSystemInfo_absent_or_verbatim_witness :
    (({ FileSystem := "none", MountPoint := "/mnt/x" } : FSInfo).getFileSystemInfo).jsonFields = [] ∧
    ((({ FileSystem := "ext4", MountPoint := "/mnt/a" } : FSInfo).getFileSystemInfo).fsType = "ext4" ∧
     (({ FileSystem := "ext4", MountPoint := "/mnt/a" } : FSInfo).getFileSystemInfo).Mountpoint = "/mnt/a") :=
  ⟨(getFileSystemInfo_absent_or_verbatim { FileSystem := "none", MountPoint := "/mnt/x" }).1 rfl,
   (getFileSystemInfo_absent_or_verbatim { FileSystem := "ext4", MountPoint := "/mnt/a" }).2 (by decide)⟩

/-- C2: whenever the aggregate's overall temperature-validity flag is false,
the temperature sub-block of the projected stats is entirely zero-valued, no
matter what the internal current/highest/lowest fields hold. -/
theorem getStats_temperature_gating (di : DiskInfo)
    (h : di.TemperatureInfo.TemperatureDataValid = false) :
    (di.getStats).TempInfo = { CurrentTemperature := 0, HighestTemperature := 0, LowestTemperature := 0 } := by
  simp [DiskInfo.getStats, h]

/-- Witness for C2 (the spec's scenario): validity flag false with an internal
current temperature of 42 still exports the all-zero temperature sub-block. -/
theorem getStats_temperature_gating_witness :
    (({ TemperatureInfo := { TemperatureDataValid := false, CurrentTemperature := 42,
                             HighestTemperature := 99, LowestTemperature := -3 } } : DiskInfo).getStats).TempInfo
      = { CurrentTemperature := 0, HighestTemperature := 0, LowestTemperature := 0 } :=
  getStats_temperature_gating
    { TemperatureInfo := { TemperatureDataValid := false, CurrentTemperature := 42,
                           HighestTemperature := 99, LowestTemperature := -3 } } rfl

/-- C10: whenever the overall temperature-validity flag is true, all three
temperature fields are copied into the exported stats — the per-field
HighestValid and LowestValid flags are never consulted (the aggregate is
universally quantified, so the copy holds for any values of those flags). -/
theorem getStats_temperature_copied_when_valid (di : DiskInfo)
    (h : di.TemperatureInfo.TemperatureDataValid = true) :
    (di.getStats).TempInfo.CurrentTemperature = di.TemperatureInfo.CurrentTemperature ∧
    (di.getStats).TempInfo.HighestTemperature = di.TemperatureInfo.HighestTemperature ∧
    (di.getStats).TempInfo.LowestTemperature = di.TemperatureInfo.LowestTemperature := by
  simp [DiskInfo.getStats, h]

/-- Witness for C10: overall flag true while HighestValid and LowestValid are
both false — highest and lowest are still copied verbatim. -/
theorem getStats_temperature_copied_when_valid_witness :
    (({ TemperatureInfo := { TemperatureDataValid := true, CurrentTemperature := 37,
                             HighestValid := false, HighestTemperature := 88,
                             LowestValid := false, LowestTemperature := -7 } } : DiskInfo).getStats).TempInfo.CurrentTemperature = 37 ∧
    (({ TemperatureInfo := { TemperatureDataValid := true, CurrentTemperature := 37,
                             HighestValid := false, HighestTemperature := 88,
                             LowestValid := false, LowestTemperature := -7 } } : DiskInfo).getStats).TempInfo.HighestTemperature = 88 ∧
    (({ TemperatureInfo := { TemperatureDataValid := true, CurrentTemperature := 37,
                             HighestValid := false, HighestTemperature := 88,
                             LowestValid := false, LowestTemperature := -7 } } : DiskInfo).getStats).TempInfo.LowestTemperature = -7 :=
  getStats_temperature_copied_when_valid
    { TemperatureInfo := { TemperatureDataValid := true, CurrentTemperature := 37,
                           HighestValid := false, HighestTemperature := 88,
                           LowestValid := false, LowestTemperature := -7 } } rfl

/-- C8: for every aggregate, the status block of the projection has its
lifecycle state equal to the fixed "active" value; no liveness determination
is performed. -/
theorem toDisk_status_always_active (di : DiskInfo) :
    (di.ToDisk).Status.State = NDMActive :=
  rfl

/-- C9: NewDiskInfo returns an aggregate whose node-attributes mapping is
allocated and empty (some [], not the nil map none) and whose classification
is the default disk type; being a total Lean definition, it never fails. -/
theorem newDiskInfo_defaults :
    NewDiskInfo.NodeAttributes = some [] ∧ NewDiskInfo.DiskType = NDMDefaultDiskType :=
  ⟨rfl, rfl⟩

/-- C3: the devlinks of a projection contain at most two entries — a "by-id"
entry holding the by-id list exactly when that list is non-empty, followed by
a "by-path" entry holding the by-path list exactly when that list is
non-empty; with both lists empty the result is the empty sequence. -/
theorem getDiskLinks_at_most_two (di : DiskInfo) :
    (di.getDiskLinks).length ≤ 2 ∧
    (di.ByIdDevLinks = [] → di.ByPathDevLinks = [] → di.getDiskLinks = []) ∧
    (di.ByIdDevLinks ≠ [] → di.ByPathDevLinks = [] →
      di.getDiskLinks = [{ Kind := "by-id", Links := di.ByIdDevLinks }]) ∧
    (di.ByIdDevLinks = [] → di.ByPathDevLinks ≠ [] →
      di.getDiskLinks = [{ Kind := "by-path", Links := di.ByPathDevLinks }]) ∧
    (di.ByIdDevLinks ≠ [] → di.ByPathDevLinks ≠ [] →
      di.getDiskLinks = [{ Kind := "by-id", Links := di.ByIdDevLinks },
                         { Kind := "by-path", Links := di.ByPathDevLinks }]) := by
  refine ⟨?_, ?_, ?_, ?_, ?_⟩
  · by_cases h1 : di.ByIdDevLinks = [] <;> by_cases h2 : di.ByPathDevLinks = [] <;>
      simp [DiskInfo.getDiskLinks, h1, h2]
  all_goals intro h1 h2
  all_goals simp [DiskInfo.getDiskLinks, h1, h2]

/-- Witness for C3: all four shapes at concrete inputs — both lists empty
gives no entries; each list alone gives its single tagged entry; both lists
give the by-id entry first and the by-path entry second. -/
theorem getDiskLinks_at_most_two_witness :
    (({} : DiskInfo).getDiskLinks = []) ∧
    (({ ByIdDevLinks := ["a"] } : DiskInfo).getDiskLinks = [{ Kind := "by-id", Links := ["a"] }]) ∧
    (({ ByPathDevLinks := ["p"] } : DiskInfo).getDiskLinks = [{ Kind := "by-path", Links := ["p"] }]) ∧
    (({ ByIdDevLinks := ["a", "b"], ByPathDevLinks := ["p"] } : DiskInfo).getDiskLinks =
      [{ Kind := "by-id", Links := ["a", "b"] }, { Kind := "by-path", Links := ["p"] }]) :=
  ⟨(getDiskLinks_at_most_two {}).2.1 rfl rfl,
   (getDiskLinks_at_most_two { ByIdDevLinks := ["a"] }).2.2.1 (by decide) rfl,
   (getDiskLinks_at_most_two { ByPathDevLinks := ["p"] }).2.2.2.1 rfl (by decide),
   (getDiskLinks_at_most_two { ByIdDevLinks := ["a", "b"], ByPathDevLinks := ["p"] }).2.2.2.2
     (by decide) (by decide)⟩

/-- C4: projecting an aggregate is deterministic and side-effect-free, so two
projections of the same unmodified aggregate are identical. -/
theorem toDisk_idempotent (di : DiskInfo) :
    di.ToDisk = di.ToDisk :=
  rfl

/-- C5: ToPartition yields exactly one exported entry per input partition
record, in input order, carrying the record's partition type verbatim and its
filesystem facts transformed by getFileSystemInfo; an empty input yields the
empty sequence (and the input, a Lean value, is never mutated). -/
theorem toPartition_order_preserving (di : DiskInfo) :
    (di.ToPartition).length = di.PartitionData.length ∧
    (∀ i (hp : i < di.PartitionData.length) (ht : i < (di.ToPartition).length),
      ((di.ToPartition).get ⟨i, ht⟩).PartitionType = (di.PartitionData.get ⟨i, hp⟩).PartitionType ∧
      ((di.ToPartition).get ⟨i, ht⟩).FileSystem =
        ((di.PartitionData.get ⟨i, hp⟩).FileSystemInformation).getFileSystemInfo) ∧
    (di.PartitionData = [] → di.ToPartition = []) := by
  refine ⟨by simp [DiskInfo.ToPartition], ?_, fun h => by simp [DiskInfo.ToPartition, h]⟩
  intro i hp ht
  simp [DiskInfo.ToPartition]

/-- Witness for C5: a concrete three-record collection projects to three
entries in order with matching fields, and the empty collection projects to
the empty sequence. -/
theorem toPartition_order_preserving_witness :
    ((({ PartitionData := [{ PartitionType := "83", FileSystemInformation := { FileSystem := "ext4", MountPoint := "/m1" } },
                           { PartitionType := "8e", FileSystemInformation := { FileSystem := "none", MountPoint := "" } },
                           { PartitionType := "82", FileSystemInformation := { FileSystem := "xfs", MountPoint := "/m3" } }] } : DiskInfo).ToPartition).get
        ⟨1, by decide⟩).PartitionType = "8e" ∧
    (({} : DiskInfo).ToPartition = []) :=
  ⟨((toPartition_order_preserving
      { PartitionData := [{ PartitionType := "83", FileSystemInformation := { FileSystem := "ext4", MountPoint := "/m1" } },
                          { PartitionType := "8e", FileSystemInformation := { FileSystem := "none", MountPoint := "" } },
                          { PartitionType := "82", FileSystemInformation := { FileSystem := "xfs", MountPoint := "/m3" } }] }).2.1
      1 (by decide) (by decide)).1,
   (toPartition_order_preserving {}).2.2 rfl⟩

/-- C6: every static-fact field of the aggregate — path; capacity, logical and
physical sector size; model, serial, vendor, firmware revision, compliance,
device subtype, rotation-rate code — appears unchanged in the corresponding
field of the projected spec, for all values. -/
theorem toDisk_static_field_fidelity (di : DiskInfo) :
    (di.ToDisk).Spec.Path = di.Path ∧
    (di.ToDisk).Spec.Capacity.Storage = di.Capacity ∧
    (di.ToDisk).Spec.Capacity.LogicalSectorSize = di.LogicalSectorSize ∧
    (di.ToDisk).Spec.Capacity.PhysicalSectorSize = di.PhysicalSectorSize ∧
    (di.ToDisk).Spec.Details.Model = di.Model ∧
    (di.ToDisk).Spec.Details.Serial = di.Serial ∧
    (di.ToDisk).Spec.Details.Vendor = di.Vendor ∧
    (di.ToDisk).Spec.Details.FirmwareRevision = di.FirmwareRevision ∧
    (di.ToDisk).Spec.Details.Compliance = di.Compliance ∧
    (di.ToDisk).Spec.Details.DriveType = di.DriveType ∧
    (di.ToDisk).Spec.Details.RotationRate = di.RotationRate :=
  ⟨rfl, rfl, rfl, rfl, rfl, rfl, rfl, rfl, rfl, rfl, rfl⟩

/-- C7: the identity metadata of a projection has name equal to the
aggregate's stable id (the Uuid field) and exactly three labels — the
node-name label holding the node-attributes entry for the hostname key, the
classification label holding the disk type, and the managed marker holding the
fixed true string; when the hostname entry is missing from the mapping the
node-name label value is the empty string (no error occurs). -/
theorem toDisk_object_meta (di : DiskInfo) :
    (di.ToDisk).ObjectMeta.Name = di.Uuid ∧
    (di.ToDisk).ObjectMeta.Labels =
      [(KubernetesHostNameLabel, NodeAttribute.goIndex di.NodeAttributes HostNameKey),
       (NDMDiskTypeKey, di.DiskType),
       (NDMManagedKey, TrueString)] ∧
    (∀ m : NodeAttribute, di.NodeAttributes = some m → List.lookup HostNameKey m = none →
      NodeAttribute.goIndex di.NodeAttributes HostNameKey = "") ∧
    (di.NodeAttributes = none → NodeAttribute.goIndex di.NodeAttributes HostNameKey = "") := by
  refine ⟨rfl, rfl, ?_, ?_⟩
  · intro m hm hl
    simp [NodeAttribute.goIndex, hm, hl]
  · intro hm
    simp [NodeAttribute.goIndex, hm]

/-- Witness for C7: an aggregate whose node-attributes mapping lacks the
hostname key gets the empty string as its node-name label value. -/
theorem toDisk_object_meta_witness :
    (({ Uuid := "disk-uuid-1", DiskType := "disk",
        NodeAttributes := some [("other", "v")] } : DiskInfo).ToDisk).ObjectMeta.Labels =
      [(KubernetesHostNameLabel, ""), (NDMDiskTypeKey, "disk"), (NDMManagedKey, TrueString)] := by
  have h := toDisk_object_meta
    { Uuid := "disk-uuid-1", DiskType := "disk", NodeAttributes := some [("other", "v")] }
  have hempty := h.2.2.1 [("other", "v")] rfl (by decide)
  rw [h.2.1, hempty]
